import Mathlib

/-!
Shallow embedding of the solar-estimate pipeline of the `amendes92/metricas`
repository, and proofs settling the frozen claims about it.

Numbers are modelled as exact rationals (`ℚ`); the JavaScript rounding
helpers `Math.round`, `Math.round(x*100)/100` and `Number(x.toFixed(1))`
are modelled exactly (round half toward +∞, which is what both `Math.round`
and `toFixed` do on the positive values arising here).  External HTTP calls
are modelled by passing the outcome of each call (network failure /
HTTP status / parsed body) as an explicit argument, mirroring the
`try`/`catch` structure of the source; `try`/`catch` absorption is encoded
by the functions being total.
-/

namespace Metricas

/-- JavaScript `Math.round`: round half toward positive infinity. -/
def jsRound (x : ℚ) : ℤ := ⌊x + 1/2⌋

/-- `Math.round(x * 100) / 100` — round to two decimal places
(src/unnamed/part_004 line 588). -/
def round2 (x : ℚ) : ℚ := (jsRound (x * 100) : ℚ) / 100

/-- `Number(x.toFixed(1))` — round to one decimal place
(src/unnamed/part_004 line 672).  `toFixed` picks the larger candidate on
ties, which coincides with rounding half toward +∞. -/
def toFixed1 (x : ℚ) : ℚ := (jsRound (x * 10) : ℚ) / 10

/-! ## Tariff lookup (src/unnamed/part_003 lines 293-334) -/

/-- `BRAZIL_TARIFFS`: per-state price-per-kWh table, plus the national
fallback key `BR` (src/unnamed/part_003 lines 293-323). -/
def BRAZIL_TARIFFS : List (String × ℚ) :=
  [("AC", 0.98), ("AL", 0.89), ("AP", 0.85), ("AM", 0.95), ("BA", 0.92),
   ("CE", 0.90), ("DF", 0.83), ("ES", 0.88), ("GO", 0.86), ("MA", 0.94),
   ("MT", 0.91), ("MS", 0.93), ("MG", 0.95), ("PA", 0.99), ("PB", 0.87),
   ("PR", 0.84), ("PE", 0.91), ("PI", 0.96), ("RJ", 1.15), ("RN", 0.88),
   ("RS", 0.85), ("RO", 0.89), ("RR", 0.90), ("SC", 0.78), ("SP", 0.92),
   ("SE", 0.88), ("TO", 0.93), ("BR", 0.90)]

/-- The 27 two-letter state codes of the regex alternation in
`getTariffByState` (src/unnamed/part_003 line 327). -/
def stateCodes : List String :=
  ["AC", "AL", "AP", "AM", "BA", "CE", "DF", "ES", "GO", "MA", "MT", "MS",
   "MG", "PA", "PB", "PR", "PE", "PI", "RJ", "RN", "RS", "RO", "RR", "SC",
   "SP", "SE", "TO"]

/-- A word character in the sense of the JavaScript regex `\b` boundary:
ASCII letter, digit or underscore.  Non-ASCII letters (such as `Ã`) are not
word characters for `\b`. -/
def isWordChar (c : Char) : Bool := c.isAlphanum || c = '_'

/-- Scan of `address.toUpperCase().match(/\b(AC|…|TO)\b/)`
(src/unnamed/part_003 line 327): leftmost occurrence of a two-letter state
code flanked by word boundaries.  `prev` is the character immediately to the
left of the current position (`none` at the start of the string). -/
def findCodeAux : Option Char → List Char → Option String
  | _, [] => none
  | prev, c1 :: rest =>
    match rest with
    | [] => none
    | c2 :: rest2 =>
      let code := String.mk [c1, c2]
      let beforeOk := match prev with
        | none => true
        | some p => !isWordChar p
      let afterOk := match rest2 with
        | [] => true
        | c3 :: _ => !isWordChar c3
      if beforeOk && afterOk && code ∈ stateCodes then some code
      else findCodeAux (some c1) rest

/-- The state code the regex of `getTariffByState` finds in an address, if
any.  JavaScript `toUpperCase` is modelled by ASCII `Char.toUpper`; the only
non-ASCII characters in play (accented letters) are non-word characters for
`\b` both before and after case mapping, so boundary decisions agree. -/
def findStateCode (address : String) : Option String :=
  findCodeAux none (address.data.map Char.toUpper)

/-- `getTariffByState` (src/unnamed/part_003 lines 325-334): price for the
first state code found, else the national fallback `BRAZIL_TARIFFS['BR']`.
The `getD` default is unreachable: every regex alternative is a table key. -/
def getTariffByState (address : String) : ℚ :=
  match findStateCode address with
  | some code => (BRAZIL_TARIFFS.lookup code).getD 0.90
  | none => 0.90

/-! ## Deterministic estimator (src/unnamed/part_004 lines 539-600) -/

/-- The slice of the Solar API `buildingInsights` response the estimator
reads: `solarPotential.maxArrayPanelsCount` and
`solarPotential.wholeRoofStats.areaMeters2`. -/
structure SolarPotentialIn where
  maxArrayPanelsCount : ℕ
  roofAreaMeters2 : ℚ
deriving DecidableEq

/-- `PANEL_POWER_WATTS` (src/unnamed/part_004 line 549). -/
def PANEL_POWER_WATTS : ℚ := 550

/-- `PANEL_PRICE_MARKET` (src/unnamed/part_004 line 550). -/
def PANEL_PRICE_MARKET : ℚ := 3200

/-- `AVG_IRRADIANCE` (src/unnamed/part_004 line 551). -/
def AVG_IRRADIANCE : ℚ := 125

/-- `PERFORMANCE_RATIO` in the source (src/unnamed/part_004 line 552). -/
def performance_factor : ℚ := 0.75

/-- `CO2_FACTOR` (src/unnamed/part_004 line 553). -/
def CO2_FACTOR : ℚ := 0.085

/-- The fixed seasonal multiplier curve `seasonality`
(src/unnamed/part_004 line 599). -/
def seasonality : List ℚ :=
  [1.1, 1.05, 1.0, 0.9, 0.8, 0.75, 0.8, 0.9, 0.95, 1.0, 1.1, 1.15]

/-- The un-rounded system size of the two sizing branches
(src/unnamed/part_004 lines 559-585, before the rounding at line 588). -/
def rawSystemSizeKw (tariff : ℚ) (solarData : Option SolarPotentialIn)
    (monthlyBill : ℚ) : ℚ :=
  match solarData with
  | some sp =>
    let roofCapacityKw := (sp.maxArrayPanelsCount : ℚ) * PANEL_POWER_WATTS / 1000
    let targetKwhMonth := monthlyBill / tariff
    let neededSystemKw := targetKwhMonth / (AVG_IRRADIANCE * performance_factor / 100)
    min roofCapacityKw (neededSystemKw * 1.2)
  | none =>
    let targetKwhMonth := monthlyBill / tariff
    targetKwhMonth / 115

/-- The roof-quality label of the two sizing branches
(src/unnamed/part_004 lines 574-575 and 584). -/
def rawRoofQuality (tariff : ℚ) (solarData : Option SolarPotentialIn)
    (monthlyBill : ℚ) : String :=
  match solarData with
  | some sp =>
    let roofCapacityKw := (sp.maxArrayPanelsCount : ℚ) * PANEL_POWER_WATTS / 1000
    let targetKwhMonth := monthlyBill / tariff
    let neededSystemKw := targetKwhMonth / (AVG_IRRADIANCE * performance_factor / 100)
    if roofCapacityKw < neededSystemKw then "Fair" else "Excellent"
  | none => "Good"

/-- `maxPanels` of the two sizing branches (src/unnamed/part_004
lines 561 and 583); the bill-only branch takes `Math.ceil` of the
un-rounded size converted to 550 W panels. -/
def rawMaxPanels (tariff : ℚ) (solarData : Option SolarPotentialIn)
    (monthlyBill : ℚ) : ℤ :=
  match solarData with
  | some sp => (sp.maxArrayPanelsCount : ℤ)
  | none => ⌈rawSystemSizeKw tariff none monthlyBill * 1000 / PANEL_POWER_WATTS⌉

/-- Output of the deterministic section of `generateSolarReportWithData`
(src/unnamed/part_004 lines 547-600). -/
structure EstimateCore where
  systemSizeKw : ℚ
  maxPanels : ℤ
  roofQuality : String
  monthlyProductionKwh : ℚ
  monthlySavingsValue : ℚ
  annualSavings : ℚ
  estimatedCost : ℚ
  paybackYears : ℚ
  co2Offset : ℚ
  monthlySavingsArray : List ℚ
deriving DecidableEq

/-- The deterministic estimator, given the tariff already looked up:
sizing branch, two-decimal rounding of the size, then the downstream
financial formulas of src/unnamed/part_004 lines 587-600. -/
def estimateWith (tariff : ℚ) (solarData : Option SolarPotentialIn)
    (monthlyBill : ℚ) : EstimateCore :=
  let systemSizeKw := round2 (rawSystemSizeKw tariff solarData monthlyBill)
  let monthlyProductionKwh := systemSizeKw * 115
  let monthlySavingsValue := monthlyProductionKwh * tariff
  let annualSavings := monthlySavingsValue * 12
  let estimatedCost := systemSizeKw * PANEL_PRICE_MARKET
  let paybackYears := estimatedCost / annualSavings
  let co2Offset := monthlyProductionKwh * 12 * CO2_FACTOR / 1000
  { systemSizeKw := systemSizeKw
    maxPanels := rawMaxPanels tariff solarData monthlyBill
    roofQuality := rawRoofQuality tariff solarData monthlyBill
    monthlyProductionKwh := monthlyProductionKwh
    monthlySavingsValue := monthlySavingsValue
    annualSavings := annualSavings
    estimatedCost := estimatedCost
    paybackYears := paybackYears
    co2Offset := co2Offset
    monthlySavingsArray := seasonality.map (fun factor => monthlySavingsValue * factor) }

/-! ## Narrative generation glue (src/unnamed/part_004 lines 515-537 and 602-660) -/

/-- What `parseGeminiJson` yields from the provider's response text: the two
fields the merge step reads.  A malformed / non-JSON response parses to `{}`,
i.e. both fields absent (src/unnamed/part_004 lines 518-537). -/
structure ParsedGemini where
  summary : Option String
  roofQuality : Option String
deriving DecidableEq

/-- Outcome of one narrative tier (backend proxy call, or direct client SDK
call).  `fail` is a network error, a non-2xx response or a thrown parse of
the HTTP body; `ok p` is a response whose text was run through
`parseGeminiJson`, yielding `p`. -/
inductive TierOutcome where
  | fail : TierOutcome
  | ok : ParsedGemini → TierOutcome
deriving DecidableEq

/-- The initial value of `geminiData` (src/unnamed/part_004 line 626). -/
def defaultSummary : String := "Economize gerando sua própria energia."

/-- The `geminiData` record merged into the final report. -/
structure GeminiData where
  summary : String
  roofQuality : Option String
deriving DecidableEq

/-- `if (parsed.summary) geminiData = parsed` (src/unnamed/part_004
lines 643 and 656): adopt the parsed record only when its `summary` is
truthy, otherwise keep the current `geminiData`. -/
def applyParsed (current : GeminiData) (p : ParsedGemini) : GeminiData :=
  match p.summary with
  | some s => if s = "" then current else { summary := s, roofQuality := p.roofQuality }
  | none => current

/-- The narrative step (src/unnamed/part_004 lines 626-660): try the backend
proxy; on its failure try the client SDK; every failure leaves the initial
`geminiData` in place (the outer `try`/`catch` absorbs everything). -/
def runNarrative (computedRoofQuality : String) (backend client : TierOutcome) :
    GeminiData :=
  let init : GeminiData :=
    { summary := defaultSummary, roofQuality := some computedRoofQuality }
  match backend with
  | .ok p => applyParsed init p
  | .fail =>
    match client with
    | .ok p => applyParsed init p
    | .fail => init

/-- Digits of the fractional part `r ∈ [0, 1)` of a terminating decimal,
most significant first. -/
def fracDigits : ℚ → ℕ → String
  | _, 0 => ""
  | r, fuel + 1 =>
    if r = 0 then ""
    else
      let d : ℤ := ⌊r * 10⌋
      toString d ++ fracDigits (r * 10 - (d : ℚ)) fuel

/-- JavaScript number-to-string interpolation for the nonnegative terminating
decimals appearing in the report template (e.g. `2.84` prints as "2.84",
`9088` as "9088"). -/
def jsNumString (x : ℚ) : String :=
  let n : ℤ := ⌊x⌋
  if x - (n : ℚ) = 0 then toString n
  else toString n ++ "." ++ fracDigits (x - (n : ℚ)) 20

/-- The templated sentence of src/unnamed/part_004 line 674:
`Com um sistema de X kWp, você economiza R$ Y por ano.`  It is the
right-hand side of `geminiData.summary || …`, reachable only if
`geminiData.summary` were falsy. -/
def fallbackSummary (systemSizeKw : ℚ) (annualSavingsRounded : ℤ) : String :=
  "Com um sistema de " ++ jsNumString systemSizeKw ++
    " kWp, você economiza R$ " ++ toString annualSavingsRounded ++ " por ano."

/-! ## Report assembly (src/unnamed/part_004 lines 539-682) -/

/-- The `SolarReportData` record returned by the pipeline
(src/unnamed/part_004 lines 663-681; `solarPotential` passthrough kept as
the optional raw input slice). -/
structure SolarReportData where
  address : String
  lat : ℚ
  lng : ℚ
  annualSavings : ℤ
  sunlightHours : ℚ
  systemSizeKw : ℚ
  co2OffsetTons : ℚ
  estimatedCost : ℤ
  paybackPeriodYears : ℚ
  monthlySavings : List ℚ
  summary : String
  roofQuality : String
  roofAreaSqMeters : ℚ
  localEnergyRate : ℚ
  monthlyBill : ℚ
  maxPanels : ℤ
  solarPotential : Option SolarPotentialIn
deriving DecidableEq

/-- `generateSolarReportWithData` (src/unnamed/part_004 lines 539-682):
tariff lookup, deterministic estimate, narrative merge, final record.  The
two narrative-tier outcomes are explicit arguments. -/
def generateSolarReportWithData (address : String) (lat lng : ℚ)
    (solarData : Option SolarPotentialIn) (monthlyBill : ℚ)
    (backend client : TierOutcome) : SolarReportData :=
  let tariff := getTariffByState address
  let core := estimateWith tariff solarData monthlyBill
  let geminiData := runNarrative core.roofQuality backend client
  { address := address
    lat := lat
    lng := lng
    annualSavings := jsRound core.annualSavings
    sunlightHours := 2000
    systemSizeKw := core.systemSizeKw
    co2OffsetTons := core.co2Offset
    estimatedCost := jsRound core.estimatedCost
    paybackPeriodYears := toFixed1 core.paybackYears
    monthlySavings := core.monthlySavingsArray
    summary :=
      if geminiData.summary = "" then
        fallbackSummary core.systemSizeKw (jsRound core.annualSavings)
      else geminiData.summary
    roofQuality :=
      match geminiData.roofQuality with
      | some r => if r = "" then core.roofQuality else r
      | none => core.roofQuality
    roofAreaSqMeters :=
      match solarData with
      | some sp =>
        if sp.roofAreaMeters2 = 0 then core.systemSizeKw * 6 else sp.roofAreaMeters2
      | none => core.systemSizeKw * 6
    localEnergyRate := tariff
    monthlyBill := monthlyBill
    maxPanels := core.maxPanels
    solarPotential := solarData }

/-! ## Geocoding and solar-potential clients (src/services/googleMapsService.ts) -/

/-- One entry of the Geocoding API's `results` array, restricted to the
fields the client reads. -/
structure GeoPoint where
  lat : ℚ
  lng : ℚ
  formatted_address : String
deriving DecidableEq

/-- A parsed Geocoding API response body: `status` plus `results`. -/
structure GeoResponse where
  status : String
  results : List GeoPoint
deriving DecidableEq

/-- Result type of `getCoordinates`. -/
structure GeocodeResult where
  lat : ℚ
  lng : ℚ
  formattedAddress : String
deriving DecidableEq

/-- Outcome of one HTTP call: `err` is a thrown fetch / body-parse error,
`resp ok body` is a response with its `response.ok` flag and parsed body. -/
inductive Outcome (α : Type) where
  | err : Outcome α
  | resp : Bool → α → Outcome α
deriving DecidableEq

/-- `data.status === 'OK' && data.results?.[0]` — the acceptance test both
geocoding tiers apply to a parsed body (src/services/googleMapsService.ts
lines 28 and 46). -/
def geoAccept (b : GeoResponse) : Option GeoPoint :=
  if b.status = "OK" then b.results.head? else none

/-- The tier-3 offline result of the two-tier `getCoordinates`
(src/services/googleMapsService.ts lines 60-65): fixed base coordinate,
diagnostic suffix, no address-dependent offset. -/
def offlineResult (address : String) : GeocodeResult :=
  { lat := -23.5505, lng := -46.6333,
    formattedAddress := address ++ " (Modo Offline/Simulado)" }

/-- Two-tier `getCoordinates` (src/services/googleMapsService.ts
lines 21-66).  Tier 1 (proxy) throws on `!response.ok` and falls through on
a non-accepted body; tier 2 (direct, no `ok` check) falls through likewise;
tier 3 is the offline simulation.  Never raises: every exception is caught
inside. -/
def getCoordinates_v1 (proxy : Outcome GeoResponse) (direct : Option GeoResponse)
    (address : String) : GeocodeResult :=
  let tier2 : GeocodeResult :=
    match direct with
    | some b =>
      match geoAccept b with
      | some r => { lat := r.lat, lng := r.lng, formattedAddress := r.formatted_address }
      | none => offlineResult address
    | none => offlineResult address
  match proxy with
  | .resp true b =>
    match geoAccept b with
    | some r => { lat := r.lat, lng := r.lng, formattedAddress := r.formatted_address }
    | none => tier2
  | _ => tier2

/-- `address.split('').reduce((acc, char) => acc + char.charCodeAt(0), 0)`
(src/services/googleMapsService.ts line 146). -/
def charCodeSum (s : String) : ℕ :=
  s.data.foldl (fun acc c => acc + c.toNat) 0

/-- `latOffset = (hash % 100) / 10000` (src/services/googleMapsService.ts
line 147). -/
def demoLatOffset (address : String) : ℚ := ((charCodeSum address % 100 : ℕ) : ℚ) / 10000

/-- `lngOffset = (hash % 50) / 10000` (src/services/googleMapsService.ts
line 148). -/
def demoLngOffset (address : String) : ℚ := ((charCodeSum address % 50 : ℕ) : ℚ) / 10000

/-- Single-tier `getCoordinates` of the second service variant
(src/services/googleMapsService.ts lines 133-172): a provider body failing
the acceptance test yields the hash-offset demo coordinate; a thrown fetch
yields the fixed base with the offline suffix. -/
def getCoordinates_v2 (direct : Option GeoResponse) (address : String) :
    GeocodeResult :=
  match direct with
  | none =>
    { lat := -23.5505, lng := -46.6333, formattedAddress := address ++ " (Offline)" }
  | some b =>
    match geoAccept b with
    | some r => { lat := r.lat, lng := r.lng, formattedAddress := r.formatted_address }
    | none =>
      { lat := -23.5505 + demoLatOffset address
        lng := -46.6333 + demoLngOffset address
        formattedAddress := address ++ " (Modo Demo)" }

/-- Single-tier `getSolarInsights` (src/services/googleMapsService.ts
lines 174-191): `null` on a thrown fetch or any non-ok status, the parsed
body otherwise. -/
def getSolarInsights_v2 {α : Type} (direct : Outcome α) : Option α :=
  match direct with
  | .err => none
  | .resp ok b => if ok then some b else none

/-- Two-tier `getSolarInsights` (src/services/googleMapsService.ts
lines 68-89): proxy success returns its body; proxy network error, non-ok
status or body-parse error falls to the direct tier, which behaves as the
single-tier version.  Never raises. -/
def getSolarInsights_v1 {α : Type} (proxy direct : Outcome α) : Option α :=
  match proxy with
  | .resp true b => some b
  | _ => getSolarInsights_v2 direct

/-! ## Leads (src/unnamed/part_000 lines 282-420) -/

/-- A captured homeowner contact (src/types.ts / src/unnamed/part_000
lines 393-406). -/
structure Lead where
  id : String
  homeownerName : String
  email : String
  phoneNumber : String
  address : String
  lat : ℚ
  lng : ℚ
  estimatedSystemSize : ℚ
  generatedAt : String
  status : String
  price : ℚ
  distanceKm : ℚ
deriving DecidableEq

/-- `buyLead` (src/unnamed/part_000 lines 415-420): map over the list,
setting `status` to `'sold'` on the lead whose id matches. -/
def buyLead (id : String) (leads : List Lead) : List Lead :=
  leads.map (fun lead => if lead.id = id then { lead with status := "sold" } else lead)

/-- The operations the UI performs on the leads state: lead creation
(`handleLeadSubmit` prepends, src/unnamed/part_000 line 408) and
`buyLead`. -/
inductive LeadOp where
  | create : Lead → LeadOp
  | buy : String → LeadOp

/-- One step of the leads state. -/
def applyLeadOp (st : List Lead) : LeadOp → List Lead
  | .create l => l :: st
  | .buy id => buyLead id st

/-- A sequence of operations on the leads state. -/
def applyLeadOps (st : List Lead) (ops : List LeadOp) : List Lead :=
  ops.foldl applyLeadOp st

/-! ## Failure predicates used by the claim statements -/

/-- A geocoding proxy-tier attempt that does not produce a result: network
error, non-ok HTTP status, or an ok response whose body fails the
`status === 'OK' && results[0]` acceptance test. -/
def proxyGeoFails (p : Outcome GeoResponse) : Bool :=
  match p with
  | .resp true b => (geoAccept b).isNone
  | _ => true

/-- A geocoding direct-tier attempt that does not produce a result. -/
def directGeoFails (d : Option GeoResponse) : Bool :=
  match d with
  | some b => (geoAccept b).isNone
  | none => true

/-- A narrative tier that contributes nothing: network/HTTP/SDK failure, or
a response whose `parseGeminiJson` output has no truthy `summary` (which is
what a malformed, non-JSON response text yields). -/
def narrTierFails (o : TierOutcome) : Bool :=
  match o with
  | .fail => true
  | .ok p =>
    match p.summary with
    | none => true
    | some s => s == ""

/-! ## Helper lemmas -/

/-- Rounding to two decimals is the identity on a number that is an integer
multiple of 1/100. -/
theorem round2_intCast_div (z : ℤ) : round2 ((z : ℚ) / 100) = (z : ℚ) / 100 := by
  unfold round2 jsRound
  have h1 : (z : ℚ) / 100 * 100 = (z : ℚ) := by
    field_simp
  rw [h1, Int.floor_int_add]
  norm_num

/-- Re-setting `status` to `'sold'` on an already sold lead is the
identity. -/
theorem set_status_sold_self (l : Lead) (h : l.status = "sold") :
    ({ l with status := "sold" } : Lead) = l := by
  cases l
  simp_all

/-- All prices in the tariff table are positive. -/
theorem brazil_tariffs_pos : ∀ p ∈ BRAZIL_TARIFFS, 0 < p.2 := by
  intro p hp
  fin_cases hp <;> norm_num

/-- Looking anything up in a positive-entry table, with positive default,
yields a positive value. -/
theorem lookup_getD_pos (l : List (String × ℚ)) (hl : ∀ p ∈ l, 0 < p.2)
    (c : String) : 0 < (List.lookup c l).getD 0.90 := by
  induction l with
  | nil => norm_num [List.lookup]
  | cons hd tl ih =>
    rw [List.lookup]
    by_cases h : c = hd.1
    · simp only [h, beq_self_eq_true, Option.getD_some]
      exact hl hd (List.mem_cons_self hd tl)
    · have hbeq : (c == hd.1) = false := beq_false_of_ne h
      rw [hbeq]
      exact ih (fun p hp => hl p (List.mem_cons_of_mem hd hp))

/-! ## Claim C7 — tariff lookup -/

/-- Claim C7: the tariff lookup is total and always positive; the
São Paulo address yields the `SP` constant 0.92; an address in which the
regex finds no state code yields the national fallback 0.90. -/
theorem tariff_lookup_total_and_instances (addr : String) :
    getTariffByState "Av. Paulista, 1000, São Paulo, SP" = 0.92 ∧
    (findStateCode addr = none → getTariffByState addr = 0.90) ∧
    0 < getTariffByState addr := by
  refine ⟨by with_unfolding_all decide, ?_, ?_⟩
  · intro h
    unfold getTariffByState
    rw [h]
  · unfold getTariffByState
    cases h : findStateCode addr with
    | none => norm_num
    | some c => exact lookup_getD_pos BRAZIL_TARIFFS brazil_tariffs_pos c

/-- Witness for C7 at concrete inputs. -/
theorem tariff_lookup_total_and_instances_witness :
    getTariffByState "Av. Paulista, 1000, São Paulo, SP" = 0.92 ∧
    findStateCode "Rua Principal 123" = none ∧
    getTariffByState "Rua Principal 123" = 0.90 ∧
    0 < getTariffByState "Rua Principal 123" :=
  ⟨(tariff_lookup_total_and_instances "Rua Principal 123").1,
   by with_unfolding_all decide,
   (tariff_lookup_total_and_instances "Rua Principal 123").2.1
     (by with_unfolding_all decide),
   (tariff_lookup_total_and_instances "Rua Principal 123").2.2⟩

/-! ## Claim C6 — solar-potential client failure behaviour -/

/-- Claim C6: `getSolarInsights` returns `null` on total failure and never
raises (the embedding is total: every `catch` is internal); a non-ok
response — including an explicit not-found — is treated identically to a
network error, both collapsing to `none`; a successful tier returns its
body. -/
theorem solar_insights_null_on_failure :
    ∀ (α : Type) (pb b : α) (d : Outcome α),
    getSolarInsights_v1 (.resp false pb) (.resp false b) = none ∧
    getSolarInsights_v1 (Outcome.err : Outcome α) (.resp false b) = none ∧
    getSolarInsights_v1 (.resp false pb) (Outcome.err : Outcome α) = none ∧
    getSolarInsights_v1 (Outcome.err : Outcome α) (Outcome.err : Outcome α) = none ∧
    getSolarInsights_v1 (Outcome.err : Outcome α) (.resp false b) =
      getSolarInsights_v1 (Outcome.err : Outcome α) (Outcome.err : Outcome α) ∧
    getSolarInsights_v1 (.resp true b) d = some b ∧
    getSolarInsights_v2 (.resp false b) = none ∧
    getSolarInsights_v2 (Outcome.err : Outcome α) = none ∧
    getSolarInsights_v2 (.resp true b) = some b := by
  intro α pb b d
  exact ⟨rfl, rfl, rfl, rfl, rfl, rfl, rfl, rfl, rfl⟩

/-! ## Claim C5 — geocoding fallback -/

/-- Claim C5 (amended): the two-tier `getCoordinates` never raises and, when
both the proxy tier and the direct tier fail, returns the fixed base
coordinate unchanged with the `(Modo Offline/Simulado)` marker — with no
address-dependent offset.  The character-sum offset appears only in the
single-tier variant, on a provider body failing the acceptance test, with
the `(Modo Demo)` marker; that variant's network-error path also returns the
fixed base, with the `(Offline)` marker. -/
theorem geocode_fallback_tiers (addr : String) (p : Outcome GeoResponse)
    (d : Option GeoResponse) (hp : proxyGeoFails p = true)
    (hd : directGeoFails d = true) :
    getCoordinates_v1 p d addr = offlineResult addr ∧
    (getCoordinates_v1 p d addr).lat = -23.5505 ∧
    (getCoordinates_v1 p d addr).lng = -46.6333 ∧
    (getCoordinates_v1 p d addr).formattedAddress =
      addr ++ " (Modo Offline/Simulado)" ∧
    (∀ b : GeoResponse, geoAccept b = none →
      getCoordinates_v2 (some b) addr =
        { lat := -23.5505 + demoLatOffset addr
          lng := -46.6333 + demoLngOffset addr
          formattedAddress := addr ++ " (Modo Demo)" }) ∧
    getCoordinates_v2 none addr =
      { lat := -23.5505, lng := -46.6333, formattedAddress := addr ++ " (Offline)" } := by
  have hv1 : getCoordinates_v1 p d addr = offlineResult addr := by
    cases p with
    | err =>
      cases d with
      | none => rfl
      | some b =>
        have hd' : geoAccept b = none := by
          simpa [directGeoFails, Option.isNone_iff_eq_none] using hd
        simp [getCoordinates_v1, hd']
    | resp ok b =>
      cases ok with
      | false =>
        cases d with
        | none => rfl
        | some b2 =>
          have hd' : geoAccept b2 = none := by
            simpa [directGeoFails, Option.isNone_iff_eq_none] using hd
          simp [getCoordinates_v1, hd']
      | true =>
        have hp' : geoAccept b = none := by
          simpa [proxyGeoFails, Option.isNone_iff_eq_none] using hp
        cases d with
        | none => simp [getCoordinates_v1, hp']
        | some b2 =>
          have hd' : geoAccept b2 = none := by
            simpa [directGeoFails, Option.isNone_iff_eq_none] using hd
          simp [getCoordinates_v1, hp', hd']
  refine ⟨hv1, by rw [hv1]; rfl, by rw [hv1]; rfl, by rw [hv1]; rfl, ?_, rfl⟩
  intro b hb
  simp [getCoordinates_v2, hb]

/-- Witness for C5 at concrete inputs. -/
theorem geocode_fallback_tiers_witness :
    proxyGeoFails Outcome.err = true ∧
    directGeoFails none = true ∧
    getCoordinates_v1 Outcome.err none "AB" = offlineResult "AB" ∧
    geoAccept { status := "ZERO_RESULTS", results := [] } = none ∧
    getCoordinates_v2 (some { status := "ZERO_RESULTS", results := [] }) "AB" =
      { lat := -23.5505 + demoLatOffset "AB", lng := -46.6333 + demoLngOffset "AB",
        formattedAddress := "AB (Modo Demo)" } :=
  ⟨rfl, rfl,
   (geocode_fallback_tiers "AB" Outcome.err none rfl rfl).1,
   by with_unfolding_all decide,
   (geocode_fallback_tiers "AB" Outcome.err none rfl rfl).2.2.2.2.1
     { status := "ZERO_RESULTS", results := [] } (by with_unfolding_all decide)⟩

/-- Counterexample to C5 as stated: on total failure of both tiers the
two-tier client does not apply the character-sum offset — for the address
"AB" the offset is nonzero, yet the returned latitude is exactly the base
coordinate. -/
theorem geocode_claim_counterexample :
    (getCoordinates_v1 Outcome.err none "AB").formattedAddress =
      "AB (Modo Offline/Simulado)" ∧
    demoLatOffset "AB" ≠ 0 ∧
    (getCoordinates_v1 Outcome.err none "AB").lat ≠ -23.5505 + demoLatOffset "AB" := by
  with_unfolding_all decide

/-! ## Claim C2 — bill-only sizing branch -/

/-- Claim C2 (amended): without solar-potential data the estimator returns
`systemSizeKw = round2(bill / tariff / 115)` — the exact quotient rounded to
two decimal places, not the exact quotient itself — and roof quality
`Good`. -/
theorem estimator_noSolar_size_quality (t b : ℚ) (ht : 0 < t) (hb : 0 < b) :
    (estimateWith t none b).systemSizeKw = round2 (b / t / 115) ∧
    (estimateWith t none b).roofQuality = "Good" :=
  ⟨rfl, rfl⟩

/-- Witness for C2 at tariff 0.92 (the SP constant) and bill 300. -/
theorem estimator_noSolar_size_quality_witness :
    (0 : ℚ) < 0.92 ∧ (0 : ℚ) < 300 ∧
    (estimateWith 0.92 none 300).systemSizeKw = round2 (300 / 0.92 / 115) ∧
    (estimateWith 0.92 none 300).roofQuality = "Good" :=
  ⟨by norm_num, by norm_num,
   estimator_noSolar_size_quality 0.92 300 (by norm_num) (by norm_num)⟩

/-- Counterexample to C2 as stated: at tariff 0.92 and bill 300 the returned
system size is the rounded value 2.84, which differs from the exact
`bill/tariff/generationFactor` quotient. -/
theorem estimator_noSolar_claim_counterexample :
    (estimateWith 0.92 none 300).systemSizeKw ≠ 300 / 0.92 / 115 ∧
    (estimateWith 0.92 none 300).systemSizeKw = 2.84 := by
  with_unfolding_all decide

/-! ## Claim C3 — solar-data sizing branch -/

/-- Claim C3 (amended): with solar-potential data the estimator returns
`systemSizeKw = round2(min(roofCapacity, need × 1.2))` (the min rounded to
two decimals), roof quality `Fair` exactly when the roof capacity is below
the bill-derived need and `Excellent` otherwise; and whenever the roof
capacity is below the need, the returned size equals the roof-limited
capacity exactly (it is a multiple of 1/100, so rounding fixes it) with
quality `Fair`. -/
theorem estimator_withSolar_size_quality (t b : ℚ) (sp : SolarPotentialIn)
    (ht : 0 < t) (hb : 0 < b) :
    (estimateWith t (some sp) b).systemSizeKw =
      round2 (min ((sp.maxArrayPanelsCount : ℚ) * 550 / 1000)
        (b / t / (125 * 0.75 / 100) * 1.2)) ∧
    (estimateWith t (some sp) b).roofQuality =
      (if (sp.maxArrayPanelsCount : ℚ) * 550 / 1000 < b / t / (125 * 0.75 / 100)
        then "Fair" else "Excellent") ∧
    ((sp.maxArrayPanelsCount : ℚ) * 550 / 1000 < b / t / (125 * 0.75 / 100) →
      (estimateWith t (some sp) b).systemSizeKw =
        (sp.maxArrayPanelsCount : ℚ) * 550 / 1000 ∧
      (estimateWith t (some sp) b).roofQuality = "Fair") := by
  refine ⟨rfl, rfl, fun hlt => ⟨?_, ?_⟩⟩
  · show round2 (rawSystemSizeKw t (some sp) b) = _
    have hneedpos : 0 < b / t / (125 * 0.75 / 100) := by positivity
    have hone : (1 : ℚ) ≤ 1.2 := by norm_num
    have hle : (sp.maxArrayPanelsCount : ℚ) * 550 / 1000 ≤
        b / t / (125 * 0.75 / 100) * 1.2 :=
      le_of_lt (lt_of_lt_of_le hlt (le_mul_of_one_le_right hneedpos.le hone))
    have hmin : rawSystemSizeKw t (some sp) b =
        (sp.maxArrayPanelsCount : ℚ) * 550 / 1000 := by
      show min ((sp.maxArrayPanelsCount : ℚ) * PANEL_POWER_WATTS / 1000)
        (b / t / (AVG_IRRADIANCE * performance_factor / 100) * 1.2) = _
      rw [PANEL_POWER_WATTS, AVG_IRRADIANCE, performance_factor]
      exact min_eq_left hle
    rw [hmin]
    have hz : (sp.maxArrayPanelsCount : ℚ) * 550 / 1000 =
        ((55 * sp.maxArrayPanelsCount : ℤ) : ℚ) / 100 := by
      push_cast
      ring
    rw [hz, round2_intCast_div]
  · show rawRoofQuality t (some sp) b = "Fair"
    unfold rawRoofQuality
    rw [PANEL_POWER_WATTS, AVG_IRRADIANCE, performance_factor]
    simp only [if_pos hlt]

/-- Witness for C3 at tariff 0.92, bill 300, and the 20-panel mock roof used
by the repository's own diagnostics (roof capacity 11 kWp below the need, so
the Fair branch fires and the size is exactly the roof capacity). -/
theorem estimator_withSolar_size_quality_witness :
    (0 : ℚ) < 0.92 ∧ (0 : ℚ) < 300 ∧
    ((20 : ℕ) : ℚ) * 550 / 1000 < 300 / 0.92 / (125 * 0.75 / 100) ∧
    (estimateWith 0.92 (some { maxArrayPanelsCount := 20, roofAreaMeters2 := 50 })
      300).systemSizeKw = ((20 : ℕ) : ℚ) * 550 / 1000 ∧
    (estimateWith 0.92 (some { maxArrayPanelsCount := 20, roofAreaMeters2 := 50 })
      300).roofQuality = "Fair" :=
  ⟨by norm_num, by norm_num, by norm_num,
   (estimator_withSolar_size_quality 0.92 300
      { maxArrayPanelsCount := 20, roofAreaMeters2 := 50 }
      (by norm_num) (by norm_num)).2.2 (by norm_num)⟩

/-- Counterexample to C3 as stated: at tariff 0.92, bill 100 and a 300-panel
roof the Excellent branch takes the headroom-capped size, and the returned
(rounded) value 139.13 differs from the exact `min` the claim asserts. -/
theorem estimator_withSolar_claim_counterexample :
    (estimateWith 0.92 (some { maxArrayPanelsCount := 300, roofAreaMeters2 := 50 })
      100).systemSizeKw ≠
      min (((300 : ℕ) : ℚ) * 550 / 1000) (100 / 0.92 / (125 * 0.75 / 100) * 1.2) ∧
    (estimateWith 0.92 (some { maxArrayPanelsCount := 300, roofAreaMeters2 := 50 })
      100).roofQuality = "Excellent" := by
  with_unfolding_all decide

/-! ## Claim C1 — monthly savings sequence -/

/-- Claim C1 (amended): every report's `monthlySavings` has exactly 12
entries, each the base monthly savings value scaled by the fixed seasonal
multiplier of that month; but the multiplier curve sums to 11.5, not 12.0,
so the sum of the entries is 23/24 of the (un-rounded) annual savings, not
the annual savings themselves. -/
theorem monthly_savings_profile (addr : String) (lat lng : ℚ)
    (sd : Option SolarPotentialIn) (bill : ℚ) (be cl : TierOutcome) :
    (generateSolarReportWithData addr lat lng sd bill be cl).monthlySavings.length
      = 12 ∧
    (generateSolarReportWithData addr lat lng sd bill be cl).monthlySavings =
      seasonality.map (fun factor =>
        (estimateWith (getTariffByState addr) sd bill).monthlySavingsValue * factor) ∧
    (generateSolarReportWithData addr lat lng sd bill be cl).monthlySavings.sum * 24
      = (estimateWith (getTariffByState addr) sd bill).annualSavings * 23 ∧
    seasonality.sum = 23 / 2 := by
  refine ⟨rfl, rfl, ?_, by norm_num [seasonality]⟩
  show (seasonality.map (fun factor =>
      (estimateWith (getTariffByState addr) sd bill).monthlySavingsValue * factor)).sum
        * 24 = _
  have hann : (estimateWith (getTariffByState addr) sd bill).annualSavings =
      (estimateWith (getTariffByState addr) sd bill).monthlySavingsValue * 12 := rfl
  rw [hann]
  norm_num [seasonality]
  ring

/-- Counterexample to C1 as stated: the seasonal curve does not sum to 12,
and at the São Paulo test input the 12 monthly entries sum to 3455.428 while
the report's annual savings are 3606 — a gap far beyond floating
rounding. -/
theorem monthly_savings_claim_counterexample :
    seasonality.sum ≠ 12 ∧
    (generateSolarReportWithData "Av. Paulista, 1000, São Paulo, SP" 0 0 none 300
      TierOutcome.fail TierOutcome.fail).monthlySavings.sum = 863857 / 250 ∧
    (generateSolarReportWithData "Av. Paulista, 1000, São Paulo, SP" 0 0 none 300
      TierOutcome.fail TierOutcome.fail).annualSavings = 3606 ∧
    (generateSolarReportWithData "Av. Paulista, 1000, São Paulo, SP" 0 0 none 300
      TierOutcome.fail TierOutcome.fail).monthlySavings.sum + 1 <
      ((generateSolarReportWithData "Av. Paulista, 1000, São Paulo, SP" 0 0 none 300
        TierOutcome.fail TierOutcome.fail).annualSavings : ℚ) := by
  have htar : getTariffByState "Av. Paulista, 1000, São Paulo, SP" = 0.92 := by
    with_unfolding_all decide
  have hs : round2 (rawSystemSizeKw
      (getTariffByState "Av. Paulista, 1000, São Paulo, SP") none 300) = 71 / 25 := by
    with_unfolding_all decide
  have hmsv : (estimateWith
      (getTariffByState "Av. Paulista, 1000, São Paulo, SP") none 300).monthlySavingsValue
      = 37559 / 125 := by
    have h0 : (estimateWith
        (getTariffByState "Av. Paulista, 1000, São Paulo, SP") none
          300).monthlySavingsValue =
        round2 (rawSystemSizeKw
          (getTariffByState "Av. Paulista, 1000, São Paulo, SP") none 300) * 115 *
          getTariffByState "Av. Paulista, 1000, São Paulo, SP" := rfl
    rw [h0, hs, htar]
    norm_num
  have hms : (generateSolarReportWithData "Av. Paulista, 1000, São Paulo, SP" 0 0 none
      300 TierOutcome.fail TierOutcome.fail).monthlySavings =
      seasonality.map (fun factor => (37559 / 125 : ℚ) * factor) := by
    show seasonality.map (fun factor => (estimateWith
      (getTariffByState "Av. Paulista, 1000, São Paulo, SP") none
        300).monthlySavingsValue * factor) = _
    rw [hmsv]
  have hann : (generateSolarReportWithData "Av. Paulista, 1000, São Paulo, SP" 0 0 none
      300 TierOutcome.fail TierOutcome.fail).annualSavings = 3606 := by
    have h0 : (generateSolarReportWithData "Av. Paulista, 1000, São Paulo, SP" 0 0 none
        300 TierOutcome.fail TierOutcome.fail).annualSavings =
        jsRound (round2 (rawSystemSizeKw
          (getTariffByState "Av. Paulista, 1000, São Paulo, SP") none 300) * 115 *
          getTariffByState "Av. Paulista, 1000, São Paulo, SP" * 12) := rfl
    rw [h0, hs, htar]
    have h1 : (71 / 25 : ℚ) * 115 * 0.92 * 12 = 450708 / 125 := by norm_num
    rw [h1]
    with_unfolding_all decide
  refine ⟨by norm_num [seasonality], ?_, hann, ?_⟩
  · rw [hms]
    norm_num [seasonality]
  · rw [hms, hann]
    norm_num [seasonality]

/-! ## Claim C10 — implicit rounding of the returned fields -/

/-- Claim C10: the estimator rounds before returning — the system size to
two decimal places (and the financial math downstream uses the rounded
size), annual savings and cost to the nearest integer, the payback period to
one decimal place; and at the São Paulo test input each returned field
differs from the corresponding exact (un-rounded) formula result. -/
theorem report_fields_rounded (addr : String) (lat lng : ℚ)
    (sd : Option SolarPotentialIn) (bill : ℚ) (be cl : TierOutcome) :
    (generateSolarReportWithData addr lat lng sd bill be cl).systemSizeKw =
      round2 (rawSystemSizeKw (getTariffByState addr) sd bill) ∧
    (generateSolarReportWithData addr lat lng sd bill be cl).annualSavings =
      jsRound (round2 (rawSystemSizeKw (getTariffByState addr) sd bill) * 115 *
        getTariffByState addr * 12) ∧
    (generateSolarReportWithData addr lat lng sd bill be cl).estimatedCost =
      jsRound (round2 (rawSystemSizeKw (getTariffByState addr) sd bill) * 3200) ∧
    (generateSolarReportWithData addr lat lng sd bill be cl).paybackPeriodYears =
      toFixed1 (round2 (rawSystemSizeKw (getTariffByState addr) sd bill) * 3200 /
        (round2 (rawSystemSizeKw (getTariffByState addr) sd bill) * 115 *
          getTariffByState addr * 12)) ∧
    (generateSolarReportWithData "Av. Paulista, 1000, São Paulo, SP" 0 0 none 300
      TierOutcome.fail TierOutcome.fail).systemSizeKw ≠
      rawSystemSizeKw 0.92 none 300 ∧
    ((generateSolarReportWithData "Av. Paulista, 1000, São Paulo, SP" 0 0 none 300
      TierOutcome.fail TierOutcome.fail).annualSavings : ℚ) ≠
      rawSystemSizeKw 0.92 none 300 * 115 * 0.92 * 12 ∧
    ((generateSolarReportWithData "Av. Paulista, 1000, São Paulo, SP" 0 0 none 300
      TierOutcome.fail TierOutcome.fail).paybackPeriodYears : ℚ) ≠
      (estimateWith 0.92 none 300).estimatedCost /
        (estimateWith 0.92 none 300).annualSavings := by
  refine ⟨rfl, rfl, rfl, rfl, ?_, ?_, ?_⟩ <;> with_unfolding_all decide

/-! ## Claim C9 — payback period -/

/-- Claim C9 (amended): the returned payback period is the cost-to-annual-
savings ratio rounded to one decimal place (computed from the pre-rounding
cost and savings), not the exact ratio; rounding 30000/3000 to one decimal
place yields exactly 10. -/
theorem payback_rounded_ratio (addr : String) (lat lng : ℚ)
    (sd : Option SolarPotentialIn) (bill : ℚ) (be cl : TierOutcome)
    (hpos : 0 < (estimateWith (getTariffByState addr) sd bill).annualSavings) :
    (generateSolarReportWithData addr lat lng sd bill be cl).paybackPeriodYears =
      toFixed1 ((estimateWith (getTariffByState addr) sd bill).estimatedCost /
        (estimateWith (getTariffByState addr) sd bill).annualSavings) ∧
    toFixed1 ((30000 : ℚ) / 3000) = 10 :=
  ⟨rfl, by with_unfolding_all decide⟩

/-- Witness for C9 at the São Paulo test input. -/
theorem payback_rounded_ratio_witness :
    0 < (estimateWith (getTariffByState "Av. Paulista, 1000, São Paulo, SP")
      none 300).annualSavings ∧
    (generateSolarReportWithData "Av. Paulista, 1000, São Paulo, SP" 0 0 none 300
      TierOutcome.fail TierOutcome.fail).paybackPeriodYears =
      toFixed1 ((estimateWith (getTariffByState "Av. Paulista, 1000, São Paulo, SP")
        none 300).estimatedCost /
        (estimateWith (getTariffByState "Av. Paulista, 1000, São Paulo, SP")
          none 300).annualSavings) :=
  ⟨by with_unfolding_all decide,
   (payback_rounded_ratio "Av. Paulista, 1000, São Paulo, SP" 0 0 none 300
      TierOutcome.fail TierOutcome.fail (by with_unfolding_all decide)).1⟩

/-- Counterexample to C9 as stated: at the São Paulo test input the returned
payback is 2.5, while the ratio of the returned (rounded) cost and savings
fields is 9088/3606 and the exact pre-rounding ratio is 4000/1587 — neither
equals the returned field. -/
theorem payback_claim_counterexample :
    (generateSolarReportWithData "Av. Paulista, 1000, São Paulo, SP" 0 0 none 300
      TierOutcome.fail TierOutcome.fail).paybackPeriodYears ≠
      ((generateSolarReportWithData "Av. Paulista, 1000, São Paulo, SP" 0 0 none 300
        TierOutcome.fail TierOutcome.fail).estimatedCost : ℚ) /
      ((generateSolarReportWithData "Av. Paulista, 1000, São Paulo, SP" 0 0 none 300
        TierOutcome.fail TierOutcome.fail).annualSavings : ℚ) ∧
    (generateSolarReportWithData "Av. Paulista, 1000, São Paulo, SP" 0 0 none 300
      TierOutcome.fail TierOutcome.fail).paybackPeriodYears ≠
      (estimateWith (getTariffByState "Av. Paulista, 1000, São Paulo, SP")
        none 300).estimatedCost /
      (estimateWith (getTariffByState "Av. Paulista, 1000, São Paulo, SP")
        none 300).annualSavings ∧
    (generateSolarReportWithData "Av. Paulista, 1000, São Paulo, SP" 0 0 none 300
      TierOutcome.fail TierOutcome.fail).paybackPeriodYears = 2.5 := by
  with_unfolding_all decide

/-! ## Claim C4 — narrative failure handling -/

/-- Claim C4 (amended): on any narrative failure — both tiers failing at the
network level, or the provider returning malformed/non-JSON text (whose
defensive parse yields no truthy `summary`) — the pipeline still completes
and returns a report whose `summary` is the fixed default sentence
`Economize gerando sua própria energia.` (a static constant, not the
numeric template of the source's dead `||` fallback) and whose
`roofQuality` is exactly the value the deterministic estimator computed. -/
theorem narrative_failure_defaults (addr : String) (lat lng : ℚ)
    (sd : Option SolarPotentialIn) (bill : ℚ) (be cl : TierOutcome)
    (hbe : narrTierFails be = true) (hcl : narrTierFails cl = true) :
    (generateSolarReportWithData addr lat lng sd bill be cl).summary =
      defaultSummary ∧
    (generateSolarReportWithData addr lat lng sd bill be cl).roofQuality =
      (estimateWith (getTariffByState addr) sd bill).roofQuality := by
  have happly : ∀ (o : TierOutcome), narrTierFails o = true → ∀ g : GeminiData,
      (match o with
        | TierOutcome.ok p => applyParsed g p
        | TierOutcome.fail => g) = g := by
    intro o ho g
    cases o with
    | fail => rfl
    | ok p =>
      unfold applyParsed
      cases hp : p.summary with
      | none => simp [hp]
      | some s =>
        simp only [narrTierFails, hp, beq_iff_eq] at ho
        simp [hp, ho]
  have hrun : runNarrative (estimateWith (getTariffByState addr) sd bill).roofQuality
      be cl =
      { summary := defaultSummary,
        roofQuality := some (estimateWith (getTariffByState addr) sd bill).roofQuality } := by
    unfold runNarrative
    cases be with
    | ok p => exact happly (TierOutcome.ok p) hbe _
    | fail =>
      cases cl with
      | ok p => exact happly (TierOutcome.ok p) hcl _
      | fail => rfl
  constructor
  · show (if (runNarrative (estimateWith (getTariffByState addr) sd bill).roofQuality
        be cl).summary = "" then _ else
        (runNarrative (estimateWith (getTariffByState addr) sd bill).roofQuality
          be cl).summary) = defaultSummary
    rw [hrun]
    simp [defaultSummary]
  · show (match (runNarrative (estimateWith (getTariffByState addr) sd bill).roofQuality
        be cl).roofQuality with
      | some r => if r = "" then
          (estimateWith (getTariffByState addr) sd bill).roofQuality else r
      | none => (estimateWith (getTariffByState addr) sd bill).roofQuality) =
      (estimateWith (getTariffByState addr) sd bill).roofQuality
    rw [hrun]
    by_cases h : (estimateWith (getTariffByState addr) sd bill).roofQuality = "" <;>
      simp [h]

/-- Witness for C4 at a concrete total-failure run. -/
theorem narrative_failure_defaults_witness :
    narrTierFails TierOutcome.fail = true ∧
    (generateSolarReportWithData "Teste" 0 0 none 300 TierOutcome.fail
      TierOutcome.fail).summary = defaultSummary ∧
    (generateSolarReportWithData "Teste" 0 0 none 300 TierOutcome.fail
      TierOutcome.fail).roofQuality =
      (estimateWith (getTariffByState "Teste") none 300).roofQuality :=
  ⟨rfl, narrative_failure_defaults "Teste" 0 0 none 300 TierOutcome.fail
    TierOutcome.fail rfl rfl⟩

/-- Counterexample to C4 as stated: on a total narrative failure the summary
is the fixed default sentence and is not the templated string built from the
computed numeric facts. -/
theorem narrative_claim_counterexample :
    (generateSolarReportWithData "Teste" 0 0 none 300 TierOutcome.fail
      TierOutcome.fail).summary = defaultSummary ∧
    (generateSolarReportWithData "Teste" 0 0 none 300 TierOutcome.fail
      TierOutcome.fail).summary ≠
      fallbackSummary
        (generateSolarReportWithData "Teste" 0 0 none 300 TierOutcome.fail
          TierOutcome.fail).systemSizeKw
        (generateSolarReportWithData "Teste" 0 0 none 300 TierOutcome.fail
          TierOutcome.fail).annualSavings := by
  with_unfolding_all decide

/-! ## Claim C8 — lead status monotonicity and frame -/

/-- Applying one operation keeps a sold lead in the state unchanged. -/
theorem sold_mem_applyLeadOp (op : LeadOp) (st : List Lead) (l : Lead)
    (hm : l ∈ st) (hs : l.status = "sold") : l ∈ applyLeadOp st op := by
  cases op with
  | create l2 => exact List.mem_cons_of_mem _ hm
  | buy id =>
    show l ∈ buyLead id st
    unfold buyLead
    have hf : (if l.id = id then ({ l with status := "sold" } : Lead) else l) = l := by
      by_cases h : l.id = id
      · rw [if_pos h, set_status_sold_self l hs]
      · rw [if_neg h]
    exact hf ▸ List.mem_map_of_mem _ hm

/-- Claim C8: a sold lead survives, still sold and otherwise unchanged, any
sequence of creations and purchases; `buyLead` preserves the length and
position of every lead, rewrites only the matching id's entry, and the
rewrite touches only the `status` field. -/
theorem lead_status_monotonic_frame :
    (∀ (st : List Lead) (ops : List LeadOp) (l : Lead),
      l ∈ st → l.status = "sold" → l ∈ applyLeadOps st ops) ∧
    (∀ (id : String) (st : List Lead), (buyLead id st).length = st.length) ∧
    (∀ (id : String) (st : List Lead) (i : ℕ) (h1 : i < st.length)
      (h2 : i < (buyLead id st).length),
      (buyLead id st).get ⟨i, h2⟩ =
        if (st.get ⟨i, h1⟩).id = id then { st.get ⟨i, h1⟩ with status := "sold" }
        else st.get ⟨i, h1⟩) ∧
    (∀ l : Lead,
      ({ l with status := "sold" } : Lead).id = l.id ∧
      ({ l with status := "sold" } : Lead).homeownerName = l.homeownerName ∧
      ({ l with status := "sold" } : Lead).email = l.email ∧
      ({ l with status := "sold" } : Lead).phoneNumber = l.phoneNumber ∧
      ({ l with status := "sold" } : Lead).address = l.address ∧
      ({ l with status := "sold" } : Lead).lat = l.lat ∧
      ({ l with status := "sold" } : Lead).lng = l.lng ∧
      ({ l with status := "sold" } : Lead).estimatedSystemSize = l.estimatedSystemSize ∧
      ({ l with status := "sold" } : Lead).generatedAt = l.generatedAt ∧
      ({ l with status := "sold" } : Lead).price = l.price ∧
      ({ l with status := "sold" } : Lead).distanceKm = l.distanceKm ∧
      ({ l with status := "sold" } : Lead).status = "sold") := by
  refine ⟨?_, ?_, ?_, ?_⟩
  · intro st ops
    induction ops generalizing st with
    | nil =>
      intro l hm _
      simpa [applyLeadOps] using hm
    | cons op ops ih =>
      intro l hm hs
      have h1 := sold_mem_applyLeadOp op st l hm hs
      have h2 := ih (applyLeadOp st op) l h1 hs
      simpa [applyLeadOps, List.foldl_cons] using h2
  · intro id st
    simp [buyLead]
  · intro id st i h1 h2
    simp [buyLead, List.get_eq_getElem, List.getElem_map]
  · intro l
    exact ⟨rfl, rfl, rfl, rfl, rfl, rfl, rfl, rfl, rfl, rfl, rfl, rfl⟩

/-- Witness for C8 at a concrete state: buying lead "1" in a two-lead state
leaves the already-sold lead "2" in the state, and the position-wise frame
holds at index 0. -/
theorem lead_status_monotonic_frame_witness :
    (({ id := "2", homeownerName := "Carlos Oliveira", email := "carlos.o@exemplo.com.br",
        phoneNumber := "(41) 98765-4321", address := "Rua das Flores, 123, Curitiba, PR",
        lat := -25.4284, lng := -49.2733, estimatedSystemSize := 5.2,
        generatedAt := "2024", status := "sold", price := 40,
        distanceKm := 350 } : Lead) ∈
      applyLeadOps
        [{ id := "1", homeownerName := "Ana Silva", email := "ana.silva@exemplo.com.br",
           phoneNumber := "(11) 99876-5432",
           address := "Av. Paulista, 1000, São Paulo, SP",
           lat := -23.5657, lng := -46.6514, estimatedSystemSize := 8.5,
           generatedAt := "2024", status := "available", price := 45,
           distanceKm := 3.2 },
         { id := "2", homeownerName := "Carlos Oliveira",
           email := "carlos.o@exemplo.com.br", phoneNumber := "(41) 98765-4321",
           address := "Rua das Flores, 123, Curitiba, PR",
           lat := -25.4284, lng := -49.2733, estimatedSystemSize := 5.2,
           generatedAt := "2024", status := "sold", price := 40,
           distanceKm := 350 }]
        [LeadOp.buy "1"]) ∧
    (buyLead "1"
      [{ id := "1", homeownerName := "Ana Silva", email := "ana.silva@exemplo.com.br",
         phoneNumber := "(11) 99876-5432",
         address := "Av. Paulista, 1000, São Paulo, SP",
         lat := -23.5657, lng := -46.6514, estimatedSystemSize := 8.5,
         generatedAt := "2024", status := "available", price := 45,
         distanceKm := 3.2 }]).length = 1 := by
  constructor
  · exact lead_status_monotonic_frame.1 _ _ _
      (List.mem_cons_of_mem _ (List.mem_cons_self _ _)) rfl
  · exact lead_status_monotonic_frame.2.1 "1" _

end Metricas
